import Mathlib

/-!
Verification of the QIC-S rotation-curve analysis scripts.

The Python sources are embedded shallowly over `ℝ`:
`numpy` arrays become `List ℝ`, element-wise operations become `List.map` /
`List.zipWith`, `np.where`-style clamps become `if` expressions, and the
fallible per-galaxy pipeline returns `Option`.

Layout: definitions first (constants, numpy-style helpers, embeddings of the
source functions), then helper lemmas, then one theorem per verified claim.
-/

namespace QICS

open Real

noncomputable section

/-! ## Physics constants (qics_analyzer.py and QICS_ZeroParam_Analysis.py) -/

/-- Characteristic acceleration scale `A0 = 1.23e-10` m/s². -/
def A0 : ℝ := 1.23e-10

/-- Mass-to-light ratio for the stellar disk, `ML_DISK = 0.5`. -/
def ML_DISK : ℝ := 0.5

/-- Mass-to-light ratio for gas, `ML_GAS = 1.0`. -/
def ML_GAS : ℝ := 1.0

/-- Mass-to-light ratio for the bulge, `ML_BULGE = 0.7`. -/
def ML_BULGE : ℝ := 0.7

/-- Conversion constant kpc → meters, `KPC_TO_M = 3.086e19`. -/
def KPC_TO_M : ℝ := 3.086e19

/-- Conversion constant km/s → m/s, `KMS_TO_MS = 1000.0`. -/
def KMS_TO_MS : ℝ := 1000.0

/-- Minimum surviving sample count for a galaxy, `MIN_POINTS = 5`
(phase_analysis.py). -/
def MIN_POINTS : ℕ := 5

/-- Bootstrap confidence level, `CONFIDENCE_LEVEL = 0.95`
(bootstrap_analysis.py). -/
def CONFIDENCE_LEVEL : ℝ := 0.95

/-! ## Numpy-style list helpers -/

/-- Mean of a list of reals (`np.mean`); `0` on the empty list, as the
real-division convention `x / 0 = 0` gives. -/
def listMean (xs : List ℝ) : ℝ := xs.sum / xs.length

/-- Population variance of a list (`np.var` with the default `ddof = 0`):
mean of squared deviations from the mean. -/
def listVar (xs : List ℝ) : ℝ :=
  listMean (xs.map (fun x => (x - listMean xs) ^ 2))

/-! ## QIC-S acceleration interpolation
(data/QICS_ZeroParam_Analysis.py, `qics_acceleration`) -/

/-- The floor `np.where(g_bar_si < 1e-15, 1e-15, g_bar_si)`. -/
def g_bar_safe (g_bar_si : ℝ) : ℝ :=
  if g_bar_si < 1e-15 then 1e-15 else g_bar_si

/-- `qics_acceleration` from data/QICS_ZeroParam_Analysis.py:
`g_tot = g_safe / (1 - exp(-sqrt(g_safe / A0)))` with the `1e-15` floor. -/
def qics_acceleration (g_bar_si : ℝ) : ℝ :=
  let g := g_bar_safe g_bar_si
  let x := g / A0
  g / (1 - Real.exp (-Real.sqrt x))

/-! ## Phase metric pipeline (phase_analysis.py, `calculate_galaxy_metrics`) -/

/-- Positivity filter `mask = (r > 0) & (v > 0)` applied to the paired
radius/velocity columns. -/
def posFilter (data : List (ℝ × ℝ)) : List (ℝ × ℝ) :=
  data.filter (fun p => decide (0 < p.1) && decide (0 < p.2))

/-- Helper for `np_argmax`: scan carrying the current best index and value,
updating only on a strict improvement (so ties keep the first index). -/
def argmaxGo : List ℝ → ℕ → ℕ → ℝ → ℕ
  | [], _, bi, _ => bi
  | x :: rest, i, bi, bv =>
    if bv < x then argmaxGo rest (i + 1) i x else argmaxGo rest (i + 1) bi bv

/-- First index achieving the maximum (`np.argmax`); `0` on the empty list. -/
def np_argmax : List ℝ → ℕ
  | [] => 0
  | x :: rest => argmaxGo rest 1 0 x

/-- The per-galaxy metric computation of phase_analysis.py: positivity
filter, minimum-count quality gate, phase metric `M = np.var(np.log(v²/r))`,
and the max-radius scaling parameters `(R_max, D_eff = R_max * v_at_rmax)`.
`None` stands for the excluded-galaxy outcome. -/
def calculate_galaxy_metrics (data : List (ℝ × ℝ)) : Option (ℝ × ℝ × ℝ) :=
  let fd := posFilter data
  if fd.length < MIN_POINTS then none
  else
    let r := fd.map (fun p => p.1)
    let v := fd.map (fun p => p.2)
    let grad_H := List.zipWith (fun vi ri => vi ^ 2 / ri) v r
    let m_metric := listVar (grad_H.map Real.log)
    let idx_max := np_argmax r
    let r_max := r.getD idx_max 0
    let v_at_rmax := v.getD idx_max 0
    some (m_metric, r_max, r_max * v_at_rmax)

/-- Aggregate-table construction from the main loop of phase_analysis.py:
one row per galaxy whose metric computation returns a value. -/
def buildResults (galaxies : List (String × List (ℝ × ℝ))) :
    List (String × ℝ × ℝ × ℝ) :=
  galaxies.filterMap
    (fun g => (calculate_galaxy_metrics g.2).map (fun m => (g.1, m)))

/-- Phase metric as the specification §4.4 words it: variance of
`log(|grad| + epsilon)` for a fixed small `epsilon`; written for comparison
with the source computation, which uses `log(grad)` with no epsilon. -/
def spec_phase_metric_eps (eps : ℝ) (data : List (ℝ × ℝ)) : ℝ :=
  listVar (data.map (fun p => Real.log (|p.2 ^ 2 / p.1| + eps)))

/-! ## Log-log regression (bootstrap_analysis.py `calculate_slope`,
scipy.stats.linregress) -/

/-- Cross moment `ssxym` of `linregress` (`np.cov(x, y, bias=1)` off-diagonal):
mean of the product of deviations from the two means. -/
def ssxym (xs ys : List ℝ) : ℝ :=
  listMean ((xs.zip ys).map
    (fun p => (p.1 - listMean xs) * (p.2 - listMean ys)))

/-- Slope of the ordinary-least-squares fit as `linregress` computes it:
`ssxym / ssxm`, where `ssxm` is the population variance of `x`. -/
def linregress_slope (xs ys : List ℝ) : ℝ := ssxym xs ys / listVar xs

/-- Intercept of the OLS fit: `ymean - slope * xmean`. -/
def linregress_intercept (xs ys : List ℝ) : ℝ :=
  listMean ys - linregress_slope xs ys * listMean xs

/-- Correlation coefficient as `linregress` computes it: `0` when either
variance vanishes, otherwise `ssxym / sqrt(ssxm * ssym)` clipped to
`[-1, 1]`. -/
def linregress_r (xs ys : List ℝ) : ℝ :=
  if listVar xs = 0 ∨ listVar ys = 0 then 0
  else
    let r0 := ssxym xs ys / Real.sqrt (listVar xs * listVar ys)
    if 1 < r0 then 1 else if r0 < -1 then -1 else r0

/-- `calculate_slope` (bootstrap_analysis.py): runs `linregress` on log-log
data and returns `(slope, r², intercept)`. -/
def calculate_slope (log_r log_d : List ℝ) : ℝ × ℝ × ℝ :=
  (linregress_slope log_r log_d, linregress_r log_r log_d ^ 2,
    linregress_intercept log_r log_d)

/-- The log-log fit of the pipeline: `calculate_slope` applied to
`np.log10` of both arrays. -/
def fit_loglog (R D : List ℝ) : ℝ × ℝ × ℝ :=
  calculate_slope (R.map (Real.logb 10)) (D.map (Real.logb 10))

/-! ## SPARC file loading (qics_analyzer.py, `load_sparc_file`) -/

/-- A numpy 2-D table as `np.loadtxt` returns it: the rows and the column
count `data.shape[1]`. -/
structure NpTable where
  rows : List (List ℝ)
  ncols : ℕ

/-- Column extraction `data[:, j]`. -/
def getCol (t : NpTable) (j : ℕ) : List ℝ := t.rows.map (fun row => row.getD j 0)

/-- `np.zeros_like`: a zero list of the same length. -/
def np_zeros_like (xs : List ℝ) : List ℝ := xs.map (fun _ => 0)

/-- Three-way `zipWith`, the element-wise combination of three equal-length
numpy arrays. -/
def zipWith3 {α β γ δ : Type} (f : α → β → γ → δ) :
    List α → List β → List γ → List δ
  | a :: as, b :: bs, c :: cs => f a b c :: zipWith3 f as bs cs
  | _, _, _ => []

/-- The velocity-uncertainty column of `load_sparc_file`: present only when
the table has more than 2 columns and the column is not entirely zero;
otherwise `None`. -/
def sparc_v_err (t : NpTable) : Option (List ℝ) :=
  if 2 < t.ncols then
    if (getCol t 2).all (fun x => decide (x = 0)) then none
    else some (getCol t 2)
  else none

/-- The gas column of `load_sparc_file`: `np.abs(data[:, 3])` when present,
else zeros of the radius column's length. -/
def sparc_v_gas (t : NpTable) : List ℝ :=
  if 3 < t.ncols then (getCol t 3).map (fun x => |x|)
  else np_zeros_like (getCol t 0)

/-- The disk column of `load_sparc_file`: `np.abs(data[:, 4])` when present,
else zeros. -/
def sparc_v_disk (t : NpTable) : List ℝ :=
  if 4 < t.ncols then (getCol t 4).map (fun x => |x|)
  else np_zeros_like (getCol t 0)

/-- The bulge column of `load_sparc_file`: `np.abs(data[:, 5])` when present,
else zeros. -/
def sparc_v_bul (t : NpTable) : List ℝ :=
  if 5 < t.ncols then (getCol t 5).map (fun x => |x|)
  else np_zeros_like (getCol t 0)

/-- Baryonic velocity composition of `load_sparc_file`:
`np.sqrt(v_gas²·ml_gas + v_disk²·ml_disk + v_bul²·ml_bulge)` element-wise. -/
def v_baryon_comp (ml_gas ml_disk ml_bulge : ℝ)
    (v_gas v_disk v_bul : List ℝ) : List ℝ :=
  zipWith3
    (fun g d b => Real.sqrt (g ^ 2 * ml_gas + d ^ 2 * ml_disk + b ^ 2 * ml_bulge))
    v_gas v_disk v_bul

/-- The record `load_sparc_file` returns (name and filename fields, which
carry no numeric content, are omitted). -/
structure SparcData where
  radius : List ℝ
  v_obs : List ℝ
  v_err : Option (List ℝ)
  v_baryon : List ℝ

/-- `load_sparc_file` (qics_analyzer.py): columns by position, trailing
component columns defaulting as the source does, baryonic composition with
the fixed mass-to-light ratios. -/
def load_sparc_file (t : NpTable) : SparcData :=
  { radius := getCol t 0
    v_obs := getCol t 1
    v_err := sparc_v_err t
    v_baryon := v_baryon_comp ML_GAS ML_DISK ML_BULGE
      (sparc_v_gas t) (sparc_v_disk t) (sparc_v_bul t) }

/-! ## Acceleration from the rotation curve (three call sites) -/

/-- `r_safe = np.where(r < 0.01, 0.01, r)` from
archive/QICS_ZeroParam_Analysis.py, `analyze_single_galaxy`. -/
def r_safe (r : ℝ) : ℝ := if r < 0.01 then 0.01 else r

/-- Per-element acceleration of archive/QICS_ZeroParam_Analysis.py:
`g_bar = v_bar_sq / r_safe`. -/
def archive_g_bar (v_bar_sq r : ℝ) : ℝ := v_bar_sq / r_safe r

/-- Per-element acceleration of data/QICS_ZeroParam_Analysis.py:
`g_bar = v_bar_sq / r`, dividing by the raw radius. -/
def data_g_bar (v_bar_sq r : ℝ) : ℝ := v_bar_sq / r

/-- Per-element acceleration of qics_analyzer.py `compute_qics_prediction`:
`g_bar = v_baryon² / r * KMS_TO_MS² / KPC_TO_M`, dividing by the raw
radius. -/
def analyzer_g_bar (r v_baryon : ℝ) : ℝ :=
  v_baryon ^ 2 / r * KMS_TO_MS ^ 2 / KPC_TO_M

/-- The subsequent floor `np.where(g_bar < 1e-15, 1e-15, g_bar)` of
`compute_qics_prediction`, applied after the division. -/
def analyzer_g_bar_floored (r v_baryon : ℝ) : ℝ :=
  if analyzer_g_bar r v_baryon < 1e-15 then 1e-15
  else analyzer_g_bar r v_baryon

/-- Acceleration as claim C8 describes every call site: the radius clamped
to the `0.01` floor before the division; written for comparison with the
source computations. -/
def spec_g_bar_clamped (r v_baryon : ℝ) : ℝ :=
  v_baryon ^ 2 / max r 0.01 * KMS_TO_MS ^ 2 / KPC_TO_M

/-! ## Bootstrap resampling (bootstrap_analysis.py, `bootstrap_analysis`) -/

/-- `np.random.seed(seed)`: the global generator state becomes a function of
the seed alone; states are modelled as naturals. -/
def np_random_seed (seed : ℕ) : ℕ := seed

/-- `np.random.choice(n, size=k, replace=True)` over an abstract generator
`step` mapping a state to a raw draw and the successor state: `k`
independent draws, each reduced mod `n` to a row index. -/
def np_random_choice (step : ℕ → ℕ × ℕ) (n : ℕ) : ℕ → ℕ → List ℕ × ℕ
  | 0, s => ([], s)
  | k + 1, s =>
    let d := step s
    let rest := np_random_choice step n k d.2
    (d.1 % n :: rest.1, rest.2)

/-- The resampling loop of `bootstrap_analysis`: each iteration draws one
index list, indexes BOTH log arrays with it (a resampled row keeps its two
coordinates together), refits, and collects the slope and R² values. -/
def bootstrapLoop (step : ℕ → ℕ × ℕ) (log_r log_d : List ℝ) (n_samples : ℕ) :
    ℕ → ℕ → List ℝ × List ℝ × ℕ
  | 0, s => ([], [], s)
  | k + 1, s =>
    let draw := np_random_choice step n_samples n_samples s
    let boot_log_r := draw.1.map (fun i => log_r.getD i 0)
    let boot_log_d := draw.1.map (fun i => log_d.getD i 0)
    let fit := calculate_slope boot_log_r boot_log_d
    let rest := bootstrapLoop step log_r log_d n_samples k draw.2
    (fit.1 :: rest.1, fit.2.1 :: rest.2.1, rest.2.2)

/-- Sample standard deviation `np.std(xs, ddof=1)`. -/
def np_std_ddof1 (xs : List ℝ) : ℝ :=
  Real.sqrt ((xs.map (fun x => (x - listMean xs) ^ 2)).sum
    / ((xs.length : ℝ) - 1))

/-- Ascending insertion, the step of `np_sort`. -/
def insertSorted (x : ℝ) : List ℝ → List ℝ
  | [] => [x]
  | y :: ys => if x ≤ y then x :: y :: ys else y :: insertSorted x ys

/-- Ascending sort (`np.sort`), as insertion sort. -/
def np_sort (xs : List ℝ) : List ℝ := xs.foldr insertSorted []

/-- `np.percentile(xs, q)` with the default linear interpolation between the
two nearest order statistics of the sorted data. -/
def np_percentile (xs : List ℝ) (q : ℝ) : ℝ :=
  let s := np_sort xs
  let h := ((s.length : ℝ) - 1) * q / 100
  let lo := ⌊h⌋₊
  let hi := ⌈h⌉₊
  s.getD lo 0 + (h - (lo : ℝ)) * (s.getD hi 0 - s.getD lo 0)

/-- The statistics dictionary `bootstrap_analysis` returns. -/
structure BootstrapStats where
  original_slope : ℝ
  original_r2 : ℝ
  original_intercept : ℝ
  bootstrap_slopes : List ℝ
  bootstrap_r2s : List ℝ
  slope_mean : ℝ
  slope_std : ℝ
  slope_ci_lower : ℝ
  slope_ci_upper : ℝ
  r2_mean : ℝ
  r2_std : ℝ
  r2_ci_lower : ℝ
  r2_ci_upper : ℝ
  slope_bias : ℝ
  n_samples : ℕ
  n_bootstrap : ℕ

/-- `bootstrap_analysis` (bootstrap_analysis.py). The incoming global
generator state is an argument, but the source's `np.random.seed(42)`
discards it by resetting the state from the hard-coded seed before the
loop; the abstract `step` models the seeded generator's transition. -/
def bootstrap_analysis (step : ℕ → ℕ × ℕ) (_globalState : ℕ)
    (all_r all_d : List ℝ) (n_bootstrap : ℕ) : BootstrapStats :=
  let log_r := all_r.map (Real.logb 10)
  let log_d := all_d.map (Real.logb 10)
  let n_samples := log_r.length
  let orig := calculate_slope log_r log_d
  let s0 := np_random_seed 42
  let res := bootstrapLoop step log_r log_d n_samples n_bootstrap s0
  let slopes := res.1
  let r2s := res.2.1
  let alpha := 1 - CONFIDENCE_LEVEL
  { original_slope := orig.1
    original_r2 := orig.2.1
    original_intercept := orig.2.2
    bootstrap_slopes := slopes
    bootstrap_r2s := r2s
    slope_mean := listMean slopes
    slope_std := np_std_ddof1 slopes
    slope_ci_lower := np_percentile slopes (100 * alpha / 2)
    slope_ci_upper := np_percentile slopes (100 * (1 - alpha / 2))
    r2_mean := listMean r2s
    r2_std := np_std_ddof1 r2s
    r2_ci_lower := np_percentile r2s (100 * alpha / 2)
    r2_ci_upper := np_percentile r2s (100 * (1 - alpha / 2))
    slope_bias := listMean slopes - orig.1
    n_samples := n_samples
    n_bootstrap := n_bootstrap }

/-! ## Helper lemmas -/

lemma g_bar_safe_pos (g : ℝ) : 0 < g_bar_safe g := by
  unfold g_bar_safe
  split
  · norm_num
  · next h => have := not_lt.mp h; linarith [show (0:ℝ) < 1e-15 by norm_num]

lemma le_g_bar_safe (g : ℝ) : g ≤ g_bar_safe g := by
  unfold g_bar_safe
  split
  · linarith
  · exact le_refl g

lemma qics_denom_bounds (g : ℝ) (hg : 0 < g) :
    0 < 1 - Real.exp (-Real.sqrt (g / A0)) ∧
      1 - Real.exp (-Real.sqrt (g / A0)) < 1 := by
  have hA0 : (0:ℝ) < A0 := by unfold A0; norm_num
  have hx : 0 < g / A0 := div_pos hg hA0
  have hs : 0 < Real.sqrt (g / A0) := Real.sqrt_pos.mpr hx
  have he1 : Real.exp (-Real.sqrt (g / A0)) < 1 :=
    Real.exp_lt_one_iff.mpr (by linarith)
  have he0 : 0 < Real.exp (-Real.sqrt (g / A0)) := Real.exp_pos _
  exact ⟨by linarith, by linarith⟩

lemma posFilter_eq_self {data : List (ℝ × ℝ)}
    (h : ∀ p ∈ data, 0 < p.1 ∧ 0 < p.2) : posFilter data = data := by
  unfold posFilter
  rw [List.filter_eq_self]
  intro a ha
  simpa using h a ha

lemma gradH_zipWith_eq (fd : List (ℝ × ℝ)) :
    List.zipWith (fun vi ri => vi ^ 2 / ri)
        (fd.map (fun p => p.2)) (fd.map (fun p => p.1))
      = fd.map (fun p => p.2 ^ 2 / p.1) := by
  induction fd with
  | nil => rfl
  | cons a l ih => simp [ih]

lemma listSum_map_add (xs : List ℝ) (c : ℝ) :
    (xs.map (fun x => x + c)).sum = xs.sum + xs.length * c := by
  induction xs with
  | nil => simp
  | cons a l ih => simp [ih]; ring

lemma listMean_map_add (xs : List ℝ) (hxs : xs ≠ []) (c : ℝ) :
    listMean (xs.map (fun x => x + c)) = listMean xs + c := by
  have hn : (xs.length : ℝ) ≠ 0 := by
    simpa using List.length_pos.mpr hxs |>.ne'
  unfold listMean
  rw [List.length_map, listSum_map_add]
  field_simp
  ring

lemma listVar_map_add (xs : List ℝ) (hxs : xs ≠ []) (c : ℝ) :
    listVar (xs.map (fun x => x + c)) = listVar xs := by
  unfold listVar
  rw [listMean_map_add xs hxs c, List.map_map]
  congr 1
  apply List.map_congr_left
  intro a _
  simp only [Function.comp_apply]
  ring_nf

lemma listVar_four_one (a b : ℝ) :
    listVar [a, a, a, a, b] = 4 / 25 * (a - b) ^ 2 := by
  simp only [listVar, listMean, List.map_cons, List.map_nil, List.sum_cons,
    List.sum_nil, List.length_cons, List.length_nil]
  push_cast
  ring

/-- Shared evaluation of the pipeline on already-clean data: with all samples
strictly positive and at least `MIN_POINTS` of them, the metric component is
the variance of `log(v² / r)` over the samples. -/
lemma calc_metrics_M (data : List (ℝ × ℝ))
    (hpos : ∀ p ∈ data, 0 < p.1 ∧ 0 < p.2)
    (hlen : MIN_POINTS ≤ data.length) :
    (calculate_galaxy_metrics data).map (fun t => t.1)
      = some (listVar (data.map (fun p => Real.log (p.2 ^ 2 / p.1)))) := by
  unfold calculate_galaxy_metrics
  rw [posFilter_eq_self hpos]
  rw [if_neg (not_lt.mpr hlen)]
  simp only [Option.map_some, gradH_zipWith_eq, List.map_map]
  rfl

lemma logb_ten_pow (n : ℕ) : Real.logb 10 ((10:ℝ) ^ n) = n := by
  rw [Real.logb_pow, Real.logb_self_eq_one (by norm_num)]
  ring

lemma log10_map_R :
    ([10, 100, 1000] : List ℝ).map (Real.logb 10) = [1, 2, 3] := by
  have l1 : Real.logb 10 (10:ℝ) = 1 := Real.logb_self_eq_one (by norm_num)
  have l2 : Real.logb 10 (100:ℝ) = 2 := by
    rw [show (100:ℝ) = 10 ^ (2:ℕ) by norm_num, logb_ten_pow]; norm_num
  have l3 : Real.logb 10 (1000:ℝ) = 3 := by
    rw [show (1000:ℝ) = 10 ^ (3:ℕ) by norm_num, logb_ten_pow]; norm_num
  simp only [List.map_cons, List.map_nil, l1, l2, l3]

lemma log10_map_D :
    ([10, 1000, 100000] : List ℝ).map (Real.logb 10) = [1, 3, 5] := by
  have l1 : Real.logb 10 (10:ℝ) = 1 := Real.logb_self_eq_one (by norm_num)
  have l3 : Real.logb 10 (1000:ℝ) = 3 := by
    rw [show (1000:ℝ) = 10 ^ (3:ℕ) by norm_num, logb_ten_pow]; norm_num
  have l5 : Real.logb 10 (100000:ℝ) = 5 := by
    rw [show (100000:ℝ) = 10 ^ (5:ℕ) by norm_num, logb_ten_pow]; norm_num
  simp only [List.map_cons, List.map_nil, l1, l3, l5]

lemma calc_slope_example :
    calculate_slope [1, 2, 3] [1, 3, 5] = (2, 1, -1) := by
  have hvx : listVar [(1:ℝ), 2, 3] = 2 / 3 := by
    norm_num [listVar, listMean]
  have hvy : listVar [(1:ℝ), 3, 5] = 8 / 3 := by
    norm_num [listVar, listMean]
  have hsxy : ssxym [(1:ℝ), 2, 3] [(1:ℝ), 3, 5] = 4 / 3 := by
    norm_num [ssxym, listMean, List.zip]
  have hmx : listMean [(1:ℝ), 2, 3] = 2 := by norm_num [listMean]
  have hmy : listMean [(1:ℝ), 3, 5] = 3 := by norm_num [listMean]
  have hslope : linregress_slope [1, 2, 3] [1, 3, 5] = 2 := by
    rw [linregress_slope, hsxy, hvx]; norm_num
  have hr : linregress_r [1, 2, 3] [1, 3, 5] = 1 := by
    rw [linregress_r, hvx, hvy]
    rw [if_neg (by norm_num)]
    have hsq : Real.sqrt (2 / 3 * (8 / 3) : ℝ) = 4 / 3 := by
      rw [show (2:ℝ) / 3 * (8 / 3) = (4 / 3) ^ 2 by norm_num,
        Real.sqrt_sq (by norm_num)]
    simp only [hsxy, hsq]
    norm_num
  have hint : linregress_intercept [1, 2, 3] [1, 3, 5] = -1 := by
    rw [linregress_intercept, hslope, hmx, hmy]; norm_num
  rw [calculate_slope, hslope, hr, hint]
  norm_num

lemma fit_loglog_example :
    fit_loglog [10, 100, 1000] [10, 1000, 100000] = (2, 1, -1) := by
  rw [fit_loglog, log10_map_R, log10_map_D, calc_slope_example]

lemma zipWith3_map₃ {δ : Type} (f : ℝ → ℝ → ℝ → δ) (g : ℝ → ℝ)
    (as bs cs : List ℝ) :
    zipWith3 f (as.map g) (bs.map g) (cs.map g)
      = zipWith3 (fun a b c => f (g a) (g b) (g c)) as bs cs := by
  induction as generalizing bs cs with
  | nil => cases bs <;> cases cs <;> simp [zipWith3]
  | cons a as ih =>
    cases bs with
    | nil => simp [zipWith3]
    | cons b bs =>
      cases cs with
      | nil => simp [zipWith3]
      | cons c cs => simp [zipWith3, ih]

lemma abs_map_eq_of_sign {xs ys : List ℝ}
    (h : List.Forall₂ (fun a b => a = b ∨ a = -b) xs ys) :
    ys.map (fun x => |x|) = xs.map (fun x => |x|) := by
  induction h with
  | nil => rfl
  | cons hab _ ih =>
    simp only [List.map_cons, ih]
    congr 1
    rcases hab with rfl | h1
    · rfl
    · rw [h1, abs_neg]

lemma np_random_choice_length (step : ℕ → ℕ × ℕ) (n : ℕ) :
    ∀ (k s : ℕ), (np_random_choice step n k s).1.length = k := by
  intro k
  induction k with
  | zero => intro s; rfl
  | succ k ih => intro s; simp [np_random_choice, ih]

lemma np_random_choice_lt (step : ℕ → ℕ × ℕ) (n : ℕ) :
    ∀ (k s : ℕ), ∀ j ∈ (np_random_choice step n k s).1, n = 0 ∨ j < n := by
  intro k
  induction k with
  | zero => intro s j hj; simp [np_random_choice] at hj
  | succ k ih =>
    intro s j hj
    simp only [np_random_choice, List.mem_cons] at hj
    rcases hj with rfl | hj
    · rcases Nat.eq_zero_or_pos n with h0 | hpos
      · exact Or.inl h0
      · exact Or.inr (Nat.mod_lt _ hpos)
    · exact ih _ j hj

lemma bootstrapLoop_spec (step : ℕ → ℕ × ℕ) (log_r log_d : List ℝ) (n : ℕ) :
    ∀ (N s : ℕ), ∃ draws : List (List ℕ),
      draws.length = N ∧
      (∀ l ∈ draws, l.length = n ∧ ∀ j ∈ l, n = 0 ∨ j < n) ∧
      (bootstrapLoop step log_r log_d n N s).1
        = draws.map (fun idx =>
            (calculate_slope (idx.map (fun i => log_r.getD i 0))
              (idx.map (fun i => log_d.getD i 0))).1) ∧
      (bootstrapLoop step log_r log_d n N s).2.1
        = draws.map (fun idx =>
            (calculate_slope (idx.map (fun i => log_r.getD i 0))
              (idx.map (fun i => log_d.getD i 0))).2.1) := by
  intro N
  induction N with
  | zero => exact fun s => ⟨[], rfl, by simp, rfl, rfl⟩
  | succ N ih =>
    intro s
    obtain ⟨draws, hlen, hmem, h1, h2⟩ := ih (np_random_choice step n n s).2
    refine ⟨(np_random_choice step n n s).1 :: draws, by simp [hlen], ?_, ?_, ?_⟩
    · intro l hl
      rcases List.mem_cons.mp hl with rfl | hl
      · exact ⟨np_random_choice_length step n n s,
          np_random_choice_lt step n n s⟩
      · exact hmem l hl
    · simp only [bootstrapLoop, List.map_cons]
      rw [← h1]
    · simp only [bootstrapLoop, List.map_cons]
      rw [← h2]

/-! ## Claim theorems -/

/-- C1: for every positive baryonic acceleration, the QIC-S interpolation
`qics_acceleration` returns a value strictly greater than the input: the
floored value `g_safe = max(g_bar, 1e-15)` is at least `g_bar`, and the
denominator `1 - exp(-sqrt(g_safe / A0))` lies strictly between 0 and 1. -/
theorem qics_acceleration_gt (g_bar : ℝ) (_hg : 0 < g_bar) :
    g_bar < qics_acceleration g_bar := by
  unfold qics_acceleration
  set s := g_bar_safe g_bar with hs
  have hs0 : 0 < s := g_bar_safe_pos g_bar
  have hgs : g_bar ≤ s := le_g_bar_safe g_bar
  obtain ⟨hd0, hd1⟩ := qics_denom_bounds s hs0
  have : s < s / (1 - Real.exp (-Real.sqrt (s / A0))) := by
    rw [lt_div_iff₀ hd0]
    calc s * (1 - Real.exp (-Real.sqrt (s / A0))) < s * 1 :=
          (mul_lt_mul_left hs0).mpr hd1
      _ = s := mul_one s
  calc g_bar ≤ s := hgs
    _ < _ := this

/-- Witness for C1 at the concrete input `g_bar = 1`. -/
theorem qics_acceleration_gt_witness :
    (0:ℝ) < 1 ∧ (1:ℝ) < qics_acceleration 1 :=
  ⟨by norm_num, qics_acceleration_gt 1 (by norm_num)⟩

/-- C2: a galaxy whose positively-filtered samples number fewer than
`MIN_POINTS = 5` is excluded: the metric computation returns no metric, and
the galaxy contributes no row to the aggregate table. -/
theorem calc_metrics_excludes_small (data : List (ℝ × ℝ))
    (h : (posFilter data).length < MIN_POINTS) :
    calculate_galaxy_metrics data = none ∧
      ∀ (name : String) (rest : List (String × List (ℝ × ℝ))),
        buildResults ((name, data) :: rest) = buildResults rest := by
  have hnone : calculate_galaxy_metrics data = none := by
    unfold calculate_galaxy_metrics
    simp only [if_pos h]
  refine ⟨hnone, fun name rest => ?_⟩
  unfold buildResults
  rw [List.filterMap_cons]
  simp [hnone]

/-- Witness for C2: a galaxy with exactly 3 valid samples is excluded. -/
theorem calc_metrics_excludes_small_witness :
    calculate_galaxy_metrics [((1:ℝ), (1:ℝ)), (2, 1), (3, 1)] = none ∧
      ∀ (name : String) (rest : List (String × List (ℝ × ℝ))),
        buildResults ((name, [((1:ℝ), (1:ℝ)), (2, 1), (3, 1)]) :: rest) =
          buildResults rest :=
  calc_metrics_excludes_small _ (by
    have h : posFilter [((1:ℝ), (1:ℝ)), (2, 1), (3, 1)] =
        [((1:ℝ), (1:ℝ)), (2, 1), (3, 1)] := by
      apply posFilter_eq_self
      intro p hp
      simp only [List.mem_cons, List.not_mem_nil, or_false] at hp
      rcases hp with rfl | rfl | rfl <;> norm_num
    rw [h]
    simp [MIN_POINTS])

/-- C4 (amended): on positively-filtered data with at least `MIN_POINTS`
samples, the phase metric is the variance of `log(v² / r)` taken directly —
no absolute value and no epsilon appear in the source — and every gradient
value entering the logarithm is strictly positive, so `log(0)` cannot
arise. -/
theorem phase_metric_no_eps (data : List (ℝ × ℝ))
    (hpos : ∀ p ∈ data, 0 < p.1 ∧ 0 < p.2)
    (hlen : MIN_POINTS ≤ data.length) :
    (calculate_galaxy_metrics data).map (fun t => t.1)
      = some (listVar (data.map (fun p => Real.log (p.2 ^ 2 / p.1)))) ∧
      ∀ p ∈ data, 0 < p.2 ^ 2 / p.1 := by
  refine ⟨calc_metrics_M data hpos hlen, fun p hp => ?_⟩
  obtain ⟨hr, hv⟩ := hpos p hp
  exact div_pos (pow_pos hv 2) hr

/-- Witness for C4 (amended) on a concrete five-sample galaxy. -/
theorem phase_metric_no_eps_witness :
    (calculate_galaxy_metrics
        [((1:ℝ), (1:ℝ)), (2, 1), (3, 1), (4, 1), (5, 1)]).map (fun t => t.1)
      = some (listVar ([((1:ℝ), (1:ℝ)), (2, 1), (3, 1), (4, 1), (5, 1)].map
          (fun p => Real.log (p.2 ^ 2 / p.1)))) ∧
      ∀ p ∈ [((1:ℝ), (1:ℝ)), (2, 1), (3, 1), (4, 1), (5, 1)],
        0 < p.2 ^ 2 / p.1 :=
  phase_metric_no_eps _
    (by
      intro p hp
      simp only [List.mem_cons, List.not_mem_nil, or_false] at hp
      rcases hp with rfl | rfl | rfl | rfl | rfl <;> norm_num)
    (by simp [MIN_POINTS])

/-- C4 (counterexample): on the five-sample galaxy with radii all `1` and
velocities `[1, 1, 1, 1, 1e-5]`, the metric computed by the source (variance
of `log(v² / r)` with no epsilon) differs from the specification's
`variance(log(|grad| + 1e-10))`. -/
theorem phase_metric_eps_counterexample :
    (calculate_galaxy_metrics
        [((1:ℝ), (1:ℝ)), (1, 1), (1, 1), (1, 1), (1, 1e-5)]).map (fun t => t.1)
      = some (listVar (([((1:ℝ), (1:ℝ)), (1, 1), (1, 1), (1, 1), (1, 1e-5)]).map
          (fun p => Real.log (p.2 ^ 2 / p.1)))) ∧
      listVar (([((1:ℝ), (1:ℝ)), (1, 1), (1, 1), (1, 1), (1, 1e-5)]).map
          (fun p => Real.log (p.2 ^ 2 / p.1)))
        ≠ spec_phase_metric_eps 1e-10
            [((1:ℝ), (1:ℝ)), (1, 1), (1, 1), (1, 1), (1, 1e-5)] := by
  constructor
  · apply calc_metrics_M
    · intro p hp
      simp only [List.mem_cons, List.not_mem_nil, or_false] at hp
      rcases hp with rfl | rfl | rfl | rfl | rfl <;> norm_num
    · simp [MIN_POINTS]
  · have hmap1 :
        ([((1:ℝ), (1:ℝ)), (1, 1), (1, 1), (1, 1), (1, 1e-5)]).map
            (fun p => Real.log (p.2 ^ 2 / p.1))
          = [0, 0, 0, 0, Real.log 1e-10] := by
      simp only [List.map_cons, List.map_nil]
      norm_num [Real.log_one]
    have hmap2 :
        ([((1:ℝ), (1:ℝ)), (1, 1), (1, 1), (1, 1), (1, 1e-5)]).map
            (fun p => Real.log (|p.2 ^ 2 / p.1| + 1e-10))
          = [Real.log (1 + 1e-10), Real.log (1 + 1e-10), Real.log (1 + 1e-10),
              Real.log (1 + 1e-10), Real.log (2e-10)] := by
      simp only [List.map_cons, List.map_nil]
      norm_num [abs_of_pos]
    rw [hmap1]
    unfold spec_phase_metric_eps
    rw [hmap2, listVar_four_one, listVar_four_one]
    have hX : Real.log (1e-10 : ℝ) = -Real.log 10000000000 := by
      rw [show (1e-10 : ℝ) = (10000000000 : ℝ)⁻¹ by norm_num, Real.log_inv]
    have hY : Real.log (1 + 1e-10 : ℝ) - Real.log (2e-10 : ℝ)
        = Real.log (10000000001 / 2) := by
      rw [← Real.log_div (by norm_num) (by norm_num)]
      norm_num
    rw [hX, hY]
    have h1 : (0:ℝ) < Real.log (10000000001 / 2) :=
      Real.log_pos (by norm_num)
    have h2 : Real.log (10000000001 / 2 : ℝ) < Real.log 10000000000 :=
      Real.log_lt_log (by norm_num) (by norm_num)
    intro heq
    nlinarith [heq, h1, h2]

/-- C5: the phase metric is invariant under scaling all velocities by a
positive constant `k`: scaling multiplies every gradient by `k²`, which
shifts every logarithm by the constant `2 log k`, and variance is invariant
under an additive shift. -/
theorem phase_metric_scale_invariant (data : List (ℝ × ℝ)) (k : ℝ)
    (hpos : ∀ p ∈ data, 0 < p.1 ∧ 0 < p.2)
    (hlen : MIN_POINTS ≤ data.length) (hk : 0 < k) :
    (calculate_galaxy_metrics
        (data.map (fun p => (p.1, k * p.2)))).map (fun t => t.1)
      = (calculate_galaxy_metrics data).map (fun t => t.1) ∧
      (calculate_galaxy_metrics data).isSome = true := by
  have hpos' : ∀ q ∈ data.map (fun p => (p.1, k * p.2)), 0 < q.1 ∧ 0 < q.2 := by
    intro q hq
    rw [List.mem_map] at hq
    obtain ⟨p, hp, rfl⟩ := hq
    exact ⟨(hpos p hp).1, mul_pos hk (hpos p hp).2⟩
  have hlen' : MIN_POINTS ≤ (data.map (fun p => (p.1, k * p.2))).length := by
    simpa using hlen
  have hdata_ne : data ≠ [] := by
    intro h
    rw [h] at hlen
    simp [MIN_POINTS] at hlen
  constructor
  · rw [calc_metrics_M _ hpos' hlen', calc_metrics_M data hpos hlen]
    congr 1
    rw [List.map_map]
    have hstep :
        data.map ((fun p : ℝ × ℝ => Real.log (p.2 ^ 2 / p.1)) ∘
            (fun p : ℝ × ℝ => (p.1, k * p.2)))
          = data.map (fun p => Real.log (p.2 ^ 2 / p.1) + Real.log (k ^ 2)) := by
      apply List.map_congr_left
      intro p hp
      obtain ⟨hr, hv⟩ := hpos p hp
      simp only [Function.comp_apply]
      rw [show (k * p.2) ^ 2 / p.1 = p.2 ^ 2 / p.1 * k ^ 2 by ring,
        Real.log_mul (by positivity) (by positivity)]
    rw [hstep, show data.map (fun p => Real.log (p.2 ^ 2 / p.1) + Real.log (k ^ 2))
        = (data.map (fun p => Real.log (p.2 ^ 2 / p.1))).map
            (fun x => x + Real.log (k ^ 2)) by rw [List.map_map]; rfl]
    exact listVar_map_add _ (by simpa using hdata_ne) _
  · have h := calc_metrics_M data hpos hlen
    cases hmet : calculate_galaxy_metrics data with
    | none => rw [hmet] at h; simp at h
    | some v => simp

/-- Witness for C5 at a concrete five-sample galaxy with `k = 2`. -/
theorem phase_metric_scale_invariant_witness :
    (calculate_galaxy_metrics
        ([((1:ℝ), (1:ℝ)), (2, 1), (3, 1), (4, 1), (5, 1)].map
          (fun p => (p.1, 2 * p.2)))).map (fun t => t.1)
      = (calculate_galaxy_metrics
          [((1:ℝ), (1:ℝ)), (2, 1), (3, 1), (4, 1), (5, 1)]).map (fun t => t.1) ∧
      (calculate_galaxy_metrics
        [((1:ℝ), (1:ℝ)), (2, 1), (3, 1), (4, 1), (5, 1)]).isSome = true :=
  phase_metric_scale_invariant _ 2
    (by
      intro p hp
      simp only [List.mem_cons, List.not_mem_nil, or_false] at hp
      rcases hp with rfl | rfl | rfl | rfl | rfl <;> norm_num)
    (by simp [MIN_POINTS])
    (by norm_num)

/-- C3 (counterexample): on `R = [10, 100, 1000]`, `D_eff = [10, 1000,
100000]`, the OLS fit on `log10` data returns slope `2`, not `1.5` as the
specification example states (the data follow `y = 2x - 1` in log space). -/
theorem fit_loglog_example_not_spec :
    (fit_loglog [10, 100, 1000] [10, 1000, 100000]).1 ≠ 1.5 := by
  rw [fit_loglog_example]
  norm_num

/-- C3 (amended): on `R = [10, 100, 1000]`, `D_eff = [10, 1000, 100000]`,
`calculate_slope` on the `log10` data returns slope `2`, R² `1`, and
intercept `-1` exactly. -/
theorem fit_loglog_example_exact :
    fit_loglog [10, 100, 1000] [10, 1000, 100000] = (2, 1, -1) :=
  fit_loglog_example

/-- C7: the baryonic composition applied to the loaded (absolute-valued)
columns equals `sqrt(w_gas·v_gas² + w_disk·v_disk² + w_bulge·v_bulge²)`
element-wise on the raw column values, each component weighted by its own
coefficient, and the result is unchanged by flipping the sign of any input
entries. -/
theorem v_baryon_composition (gas disk bul gas' disk' bul' : List ℝ)
    (hg : List.Forall₂ (fun a b => a = b ∨ a = -b) gas gas')
    (hd : List.Forall₂ (fun a b => a = b ∨ a = -b) disk disk')
    (hb : List.Forall₂ (fun a b => a = b ∨ a = -b) bul bul') :
    v_baryon_comp ML_GAS ML_DISK ML_BULGE (gas.map (fun x => |x|))
        (disk.map (fun x => |x|)) (bul.map (fun x => |x|))
      = zipWith3 (fun x y z =>
          Real.sqrt (ML_GAS * x ^ 2 + ML_DISK * y ^ 2 + ML_BULGE * z ^ 2))
          gas disk bul ∧
    v_baryon_comp ML_GAS ML_DISK ML_BULGE (gas'.map (fun x => |x|))
        (disk'.map (fun x => |x|)) (bul'.map (fun x => |x|))
      = v_baryon_comp ML_GAS ML_DISK ML_BULGE (gas.map (fun x => |x|))
        (disk.map (fun x => |x|)) (bul.map (fun x => |x|)) := by
  constructor
  · unfold v_baryon_comp
    rw [zipWith3_map₃]
    have hf : (fun a b c : ℝ => Real.sqrt
          (|a| ^ 2 * ML_GAS + |b| ^ 2 * ML_DISK + |c| ^ 2 * ML_BULGE))
        = (fun x y z : ℝ => Real.sqrt
          (ML_GAS * x ^ 2 + ML_DISK * y ^ 2 + ML_BULGE * z ^ 2)) := by
      funext a b c
      rw [sq_abs, sq_abs, sq_abs]
      congr 1
      ring
    rw [hf]
  · rw [abs_map_eq_of_sign hg, abs_map_eq_of_sign hd, abs_map_eq_of_sign hb]

/-- Witness for C7 on concrete columns with three flipped entries. -/
theorem v_baryon_composition_witness :
    v_baryon_comp ML_GAS ML_DISK ML_BULGE
        (([3, -4] : List ℝ).map (fun x => |x|))
        (([1, 2] : List ℝ).map (fun x => |x|))
        (([0, 5] : List ℝ).map (fun x => |x|))
      = zipWith3 (fun x y z =>
          Real.sqrt (ML_GAS * x ^ 2 + ML_DISK * y ^ 2 + ML_BULGE * z ^ 2))
          [3, -4] [1, 2] [0, 5] ∧
    v_baryon_comp ML_GAS ML_DISK ML_BULGE
        (([-3, -4] : List ℝ).map (fun x => |x|))
        (([1, -2] : List ℝ).map (fun x => |x|))
        (([0, 5] : List ℝ).map (fun x => |x|))
      = v_baryon_comp ML_GAS ML_DISK ML_BULGE
        (([3, -4] : List ℝ).map (fun x => |x|))
        (([1, 2] : List ℝ).map (fun x => |x|))
        (([0, 5] : List ℝ).map (fun x => |x|)) :=
  v_baryon_composition [3, -4] [1, 2] [0, 5] [-3, -4] [1, -2] [0, 5]
    (List.Forall₂.cons (Or.inr (by norm_num))
      (List.Forall₂.cons (Or.inl rfl) List.Forall₂.nil))
    (List.Forall₂.cons (Or.inl rfl)
      (List.Forall₂.cons (Or.inr (by norm_num)) List.Forall₂.nil))
    (List.Forall₂.cons (Or.inl rfl)
      (List.Forall₂.cons (Or.inl rfl) List.Forall₂.nil))

/-- C8 (counterexample): `compute_qics_prediction` (qics_analyzer.py)
divides by the raw radius with no `0.01` clamp; at radius `1/200` kpc
(positive but below the floor) and baryonic velocity `1` it differs by a
factor of 2 from the radius-clamped computation the claim describes. -/
theorem g_bar_no_radius_clamp :
    analyzer_g_bar (1 / 200) 1 ≠ spec_g_bar_clamped (1 / 200) 1 := by
  unfold analyzer_g_bar spec_g_bar_clamped KMS_TO_MS KPC_TO_M
  rw [max_eq_right (by norm_num : (1:ℝ) / 200 ≤ 0.01)]
  norm_num

/-- C8 (amended): only archive/QICS_ZeroParam_Analysis.py clamps the radius
(`r_safe ≥ 0.01 > 0`) before dividing; qics_analyzer.py instead floors the
already-divided acceleration at `1e-15`, and data/QICS_ZeroParam_Analysis.py
divides by the raw radius with no clamp. -/
theorem radius_floor_per_callsite (r v_bar_sq v_baryon : ℝ) :
    0.01 ≤ r_safe r ∧ 0 < r_safe r ∧
      archive_g_bar v_bar_sq r = v_bar_sq / r_safe r ∧
      1e-15 ≤ analyzer_g_bar_floored r v_baryon ∧
      data_g_bar v_bar_sq r = v_bar_sq / r := by
  have h1 : (0.01:ℝ) ≤ r_safe r := by
    unfold r_safe
    split
    · exact le_refl _
    · next h => exact not_lt.mp h
  refine ⟨h1, lt_of_lt_of_le (by norm_num) h1, rfl, ?_, rfl⟩
  unfold analyzer_g_bar_floored
  split
  · exact le_refl _
  · next h => exact not_lt.mp h

/-- C9 (counterexample): on a table with only radius and velocity columns,
`load_sparc_file` sets the velocity-uncertainty field to `None`, not to a
zero-filled array of the radius column's length as the claim states. -/
theorem sparc_missing_err_not_zeros :
    (load_sparc_file { rows := [[1, 10]], ncols := 2 }).v_err = none ∧
      (load_sparc_file { rows := [[1, 10]], ncols := 2 }).v_err ≠
        some (np_zeros_like
          ((load_sparc_file { rows := [[1, 10]], ncols := 2 }).radius)) := by
  have h : (load_sparc_file { rows := [[1, 10]], ncols := 2 }).v_err = none := by
    show sparc_v_err { rows := [[1, 10]], ncols := 2 } = none
    unfold sparc_v_err
    norm_num
  exact ⟨h, by rw [h]; simp⟩

/-- C9 (amended): missing gas, disk, and bulge columns each default to a
zero-filled array of the radius column's length and a complete record is
returned; a missing velocity-uncertainty column defaults to `None`
instead. -/
theorem sparc_loader_defaults (t : NpTable) :
    (t.ncols ≤ 2 → (load_sparc_file t).v_err = none) ∧
      (t.ncols ≤ 3 → sparc_v_gas t = np_zeros_like ((load_sparc_file t).radius)) ∧
      (t.ncols ≤ 4 → sparc_v_disk t = np_zeros_like ((load_sparc_file t).radius)) ∧
      (t.ncols ≤ 5 → sparc_v_bul t = np_zeros_like ((load_sparc_file t).radius)) ∧
      (sparc_v_gas t).length = (load_sparc_file t).radius.length ∧
      (sparc_v_disk t).length = (load_sparc_file t).radius.length ∧
      (sparc_v_bul t).length = (load_sparc_file t).radius.length := by
  refine ⟨fun h => ?_, fun h => ?_, fun h => ?_, fun h => ?_, ?_, ?_, ?_⟩
  · show sparc_v_err t = none
    unfold sparc_v_err
    rw [if_neg (not_lt.mpr h)]
  · unfold sparc_v_gas
    rw [if_neg (not_lt.mpr h)]
    rfl
  · unfold sparc_v_disk
    rw [if_neg (not_lt.mpr h)]
    rfl
  · unfold sparc_v_bul
    rw [if_neg (not_lt.mpr h)]
    rfl
  · show (sparc_v_gas t).length = (getCol t 0).length
    unfold sparc_v_gas np_zeros_like getCol
    split <;> simp
  · show (sparc_v_disk t).length = (getCol t 0).length
    unfold sparc_v_disk np_zeros_like getCol
    split <;> simp
  · show (sparc_v_bul t).length = (getCol t 0).length
    unfold sparc_v_bul np_zeros_like getCol
    split <;> simp

/-- Witness for C9 (amended) on the two-column table `[[1, 10]]`. -/
theorem sparc_loader_defaults_witness :
    (load_sparc_file { rows := [[1, 10]], ncols := 2 }).v_err = none ∧
      sparc_v_gas { rows := [[1, 10]], ncols := 2 }
        = np_zeros_like
            ((load_sparc_file { rows := [[1, 10]], ncols := 2 }).radius) :=
  ⟨(sparc_loader_defaults _).1 (by norm_num),
    (sparc_loader_defaults _).2.1 (by norm_num)⟩

/-- C6: `bootstrap_analysis` performs exactly N iterations, producing slope
and R² collections of length exactly N; each iteration draws one list of
`n_samples` valid row indices shared across the paired log arrays (a
resampled row keeps its R and D_eff together); the reported statistics are
the mean, the `ddof = 1` sample standard deviation, the empirical
`[2.5, 97.5]` percentile bounds at the 0.95 confidence level, and the bias
(bootstrap mean slope minus the original OLS slope). -/
theorem bootstrap_analysis_spec (step : ℕ → ℕ × ℕ) (g : ℕ)
    (all_r all_d : List ℝ) (N : ℕ) :
    (bootstrap_analysis step g all_r all_d N).n_bootstrap = N ∧
    (bootstrap_analysis step g all_r all_d N).bootstrap_slopes.length = N ∧
    (bootstrap_analysis step g all_r all_d N).bootstrap_r2s.length = N ∧
    (bootstrap_analysis step g all_r all_d N).slope_mean
      = listMean (bootstrap_analysis step g all_r all_d N).bootstrap_slopes ∧
    (bootstrap_analysis step g all_r all_d N).slope_std
      = np_std_ddof1 (bootstrap_analysis step g all_r all_d N).bootstrap_slopes ∧
    (bootstrap_analysis step g all_r all_d N).slope_ci_lower
      = np_percentile (bootstrap_analysis step g all_r all_d N).bootstrap_slopes 2.5 ∧
    (bootstrap_analysis step g all_r all_d N).slope_ci_upper
      = np_percentile (bootstrap_analysis step g all_r all_d N).bootstrap_slopes 97.5 ∧
    (bootstrap_analysis step g all_r all_d N).r2_mean
      = listMean (bootstrap_analysis step g all_r all_d N).bootstrap_r2s ∧
    (bootstrap_analysis step g all_r all_d N).r2_std
      = np_std_ddof1 (bootstrap_analysis step g all_r all_d N).bootstrap_r2s ∧
    (bootstrap_analysis step g all_r all_d N).r2_ci_lower
      = np_percentile (bootstrap_analysis step g all_r all_d N).bootstrap_r2s 2.5 ∧
    (bootstrap_analysis step g all_r all_d N).r2_ci_upper
      = np_percentile (bootstrap_analysis step g all_r all_d N).bootstrap_r2s 97.5 ∧
    (bootstrap_analysis step g all_r all_d N).slope_bias
      = listMean (bootstrap_analysis step g all_r all_d N).bootstrap_slopes
        - (bootstrap_analysis step g all_r all_d N).original_slope ∧
    ∃ draws : List (List ℕ),
      draws.length = N ∧
      (∀ l ∈ draws,
        l.length = (bootstrap_analysis step g all_r all_d N).n_samples ∧
        ∀ j ∈ l, (bootstrap_analysis step g all_r all_d N).n_samples = 0 ∨
          j < (bootstrap_analysis step g all_r all_d N).n_samples) ∧
      (bootstrap_analysis step g all_r all_d N).bootstrap_slopes
        = draws.map (fun idx =>
            (calculate_slope
              (idx.map (fun i => (all_r.map (Real.logb 10)).getD i 0))
              (idx.map (fun i => (all_d.map (Real.logb 10)).getD i 0))).1) ∧
      (bootstrap_analysis step g all_r all_d N).bootstrap_r2s
        = draws.map (fun idx =>
            (calculate_slope
              (idx.map (fun i => (all_r.map (Real.logb 10)).getD i 0))
              (idx.map (fun i => (all_d.map (Real.logb 10)).getD i 0))).2.1) := by
  obtain ⟨draws, hdlen, hdmem, h1, h2⟩ :=
    bootstrapLoop_spec step (all_r.map (Real.logb 10))
      (all_d.map (Real.logb 10)) ((all_r.map (Real.logb 10)).length) N
      (np_random_seed 42)
  have hslopes : (bootstrap_analysis step g all_r all_d N).bootstrap_slopes
      = (bootstrapLoop step (all_r.map (Real.logb 10))
          (all_d.map (Real.logb 10)) ((all_r.map (Real.logb 10)).length) N
          (np_random_seed 42)).1 := rfl
  have hr2s : (bootstrap_analysis step g all_r all_d N).bootstrap_r2s
      = (bootstrapLoop step (all_r.map (Real.logb 10))
          (all_d.map (Real.logb 10)) ((all_r.map (Real.logb 10)).length) N
          (np_random_seed 42)).2.1 := rfl
  have hlo : (100:ℝ) * (1 - CONFIDENCE_LEVEL) / 2 = 2.5 := by
    norm_num [CONFIDENCE_LEVEL]
  have hhi : (100:ℝ) * (1 - (1 - CONFIDENCE_LEVEL) / 2) = 97.5 := by
    norm_num [CONFIDENCE_LEVEL]
  refine ⟨rfl, ?_, ?_, rfl, rfl, ?_, ?_, rfl, rfl, ?_, ?_, rfl,
    draws, hdlen, hdmem, ?_, ?_⟩
  · rw [hslopes, h1, List.length_map, hdlen]
  · rw [hr2s, h2, List.length_map, hdlen]
  · show np_percentile (bootstrap_analysis step g all_r all_d N).bootstrap_slopes
        (100 * (1 - CONFIDENCE_LEVEL) / 2)
      = np_percentile (bootstrap_analysis step g all_r all_d N).bootstrap_slopes 2.5
    rw [hlo]
  · show np_percentile (bootstrap_analysis step g all_r all_d N).bootstrap_slopes
        (100 * (1 - (1 - CONFIDENCE_LEVEL) / 2))
      = np_percentile (bootstrap_analysis step g all_r all_d N).bootstrap_slopes 97.5
    rw [hhi]
  · show np_percentile (bootstrap_analysis step g all_r all_d N).bootstrap_r2s
        (100 * (1 - CONFIDENCE_LEVEL) / 2)
      = np_percentile (bootstrap_analysis step g all_r all_d N).bootstrap_r2s 2.5
    rw [hlo]
  · show np_percentile (bootstrap_analysis step g all_r all_d N).bootstrap_r2s
        (100 * (1 - (1 - CONFIDENCE_LEVEL) / 2))
      = np_percentile (bootstrap_analysis step g all_r all_d N).bootstrap_r2s 97.5
    rw [hhi]
  · rw [hslopes, h1]
  · rw [hr2s, h2]

/-- C10: `bootstrap_analysis` is deterministic with respect to the prior
state of the global pseudo-random generator: the call re-seeds the generator
with the hard-coded constant 42, so two invocations from any two incoming
generator states return identical results. -/
theorem bootstrap_analysis_deterministic (step : ℕ → ℕ × ℕ) (g₁ g₂ : ℕ)
    (all_r all_d : List ℝ) (N : ℕ) :
    bootstrap_analysis step g₁ all_r all_d N
      = bootstrap_analysis step g₂ all_r all_d N := rfl

end

end QICS
